import Mathlib

/-!
Verification of the Model Resolution & Counting Dispatch subsystem of the
`ctx` tokenizer helpers.

Embedded sources:
* `src/internal/tokenizer/helpers/llama_count.py` — local backend: tiered
  artifact resolution (`resolve_model_path`) plus SentencePiece counting.
* `src/internal/tokenizer/helpers/anthropic_count.py` — remote backend:
  Anthropic token counting, error classification (`handle_count_error`) and
  model discovery (`discover_claude_models`).

External collaborators (the `huggingface_hub` fetch primitive, the
SentencePiece encoder, the Anthropic API client) are modelled as explicit
capability parameters; where their behaviour decides a property, the
definition carries a doc comment starting `Modelled from the spec:`.
-/

namespace Ctx

/-! ### Python-level primitives -/

/-- Python `str.startswith(p)`: is `p` a leading segment of `s`. -/
def pyStartsWith (s p : String) : Bool :=
  p.data.isPrefixOf s.data

/-- Python truthiness of an optional string: `None` and the empty string
are falsy, every other string is truthy. -/
def truthy : Option String → Bool
  | none => false
  | some s => decide (s ≠ "")

/-- Lexicographic (code-point) comparison of character lists, the order
Python `list.sort()` uses on strings. -/
def charListLe : List Char → List Char → Bool
  | [], _ => true
  | _ :: _, [] => false
  | a :: as, b :: bs =>
    if a = b then charListLe as bs else decide (a < b)

/-- Python string comparison `a <= b` (code-point lexicographic). -/
def strLe (a b : String) : Prop :=
  charListLe a.data b.data = true

instance strLe.instDecRel : DecidableRel strLe :=
  fun a b => instDecidableEqBool (charListLe a.data b.data) true

theorem charListLe_total : ∀ a b : List Char, charListLe a b = true ∨ charListLe b a = true
  | [], _ => Or.inl rfl
  | _ :: _, [] => Or.inr rfl
  | a :: as, b :: bs => by
    by_cases hab : a = b
    · subst hab
      simpa [charListLe] using charListLe_total as bs
    · rcases lt_or_gt_of_ne hab with h | h
      · exact Or.inl (by simp [charListLe, hab, h])
      · exact Or.inr (by simp [charListLe, Ne.symm hab, h])

theorem charListLe_trans :
    ∀ a b c : List Char, charListLe a b = true → charListLe b c = true →
      charListLe a c = true
  | [], _, _, _, _ => rfl
  | _ :: _, [], _, hab, _ => by simp [charListLe] at hab
  | _ :: _, _ :: _, [], _, hbc => by simp [charListLe] at hbc
  | a :: as, b :: bs, c :: cs, hab, hbc => by
    by_cases hab1 : a = b
    · subst hab1
      by_cases hbc1 : a = c
      · subst hbc1
        simp only [charListLe, if_pos rfl] at hab hbc ⊢
        exact charListLe_trans as bs cs hab hbc
      · simpa [charListLe, hbc1] using (by simpa [charListLe, hbc1] using hbc)
    · by_cases hbc1 : b = c
      · subst hbc1
        simpa [charListLe, hab1] using (by simpa [charListLe, hab1] using hab)
      · simp only [charListLe, if_neg hab1, decide_eq_true_eq] at hab
        simp only [charListLe, if_neg hbc1, decide_eq_true_eq] at hbc
        have hac : a < c := lt_trans hab hbc
        simp [charListLe, ne_of_lt hac, hac]

instance strLe.instIsTotal : IsTotal String strLe :=
  ⟨fun a b => charListLe_total a.data b.data⟩

instance strLe.instIsTrans : IsTrans String strLe :=
  ⟨fun a b c => charListLe_trans a.data b.data c.data⟩

/-! ### Artifact resolution (`llama_count.py`, `resolve_model_path`) -/

/-- The priority rank at which an artifact was located (spec §3).
The code realises `Explicit` and `EnvironmentOverride` as the two
iterations of the candidate loop, and `CacheHit` / `FreshDownload` inside
the `hf_hub_download` fallback. -/
inductive Tier
  | Explicit
  | EnvironmentOverride
  | CacheHit
  | FreshDownload
deriving DecidableEq, Repr

/-- A successfully resolved artifact: the path returned by
`resolve_model_path` plus the tier (return site) that produced it. -/
structure ResolvedArtifact where
  path : String
  tier : Tier
deriving DecidableEq, Repr

/-- The two failure exits of `resolve_model_path`, both surfacing as
ArtifactUnavailable (stderr message + `sys.exit(1)`):
`explicitMissing` is the hard error for a provided `--spm-model` path that
is not a regular file; `downloadFailed` is the fallback-branch failure. -/
inductive ResolveError
  | explicitMissing (path : String)
  | downloadFailed
deriving DecidableEq, Repr

/-- Observable filesystem / network activity of one resolution. -/
inductive FsEvent
  | mkdirCache
  | netFetch
deriving DecidableEq, Repr

/-- The ambient state `resolve_model_path` reads: the home directory (for
`expanduser`), the regular-file predicate of the filesystem, the
`CTX_SPM_MODEL` environment override, the cache directory and artifact
file name, whether `mkdir` succeeds, whether the cache directory already
holds the artifact file, and whether a network fetch would succeed. -/
structure ResolverEnv where
  home : String
  isRegularFile : String → Bool
  envModel : Option String
  cacheDir : String
  fileName : String
  mkdirOk : Bool
  cacheHasFile : Bool
  fetchOk : Bool

/-- `pathlib.Path.expanduser`: a leading `~` is replaced by the home
directory; other paths are unchanged. -/
def expanduser (home p : String) : String :=
  if p == "~" then home
  else if pyStartsWith p "~/" then home ++ p.drop 1
  else p

/-- The path `hf_hub_download` places the artifact at inside the cache
directory (`local_dir=DEFAULT_CACHE`, `filename=fileName`). -/
def cachePath (env : ResolverEnv) : String :=
  env.cacheDir ++ "/" ++ env.fileName

/-- The candidate loop of `resolve_model_path`: walk
`[path_argument, os.getenv("CTX_SPM_MODEL")]` in order; skip falsy
candidates; return the expanded path if it is a regular file; hard-error
when the failing candidate is the explicit `path_argument`; otherwise fall
through (`none`) to the download branch. Each candidate is paired with the
tier its return site realises. -/
def resolveLoop (pathArgument : Option String) (env : ResolverEnv) :
    List (Option String × Tier) → Option (Except ResolveError ResolvedArtifact)
  | [] => none
  | (candidate, tier) :: rest =>
    if truthy candidate then
      let resolved := expanduser env.home (candidate.getD "")
      if env.isRegularFile resolved then
        some (Except.ok ⟨resolved, tier⟩)
      else if candidate = pathArgument then
        some (Except.error (ResolveError.explicitMissing resolved))
      else
        resolveLoop pathArgument env rest
    else
      resolveLoop pathArgument env rest

/-- Modelled from the spec: the artifact fetch capability
(`hf_hub_download`, an external collaborator not under `src/`). Per spec
§4.1 steps 3–4, it first checks the cache directory for the artifact file
and returns it without network activity (tier CacheHit); only on a cache
miss does it perform one network fetch into the cache directory (tier
FreshDownload), failing with ArtifactUnavailable when the fetch fails. -/
def hfHubDownload (env : ResolverEnv) :
    Except ResolveError ResolvedArtifact × List FsEvent :=
  if env.cacheHasFile then
    (Except.ok ⟨cachePath env, Tier.CacheHit⟩, [])
  else if env.fetchOk then
    (Except.ok ⟨cachePath env, Tier.FreshDownload⟩, [FsEvent.netFetch])
  else
    (Except.error ResolveError.downloadFailed, [FsEvent.netFetch])

/-- The `try` fallback branch of `resolve_model_path`:
`DEFAULT_CACHE.mkdir(parents=True, exist_ok=True)` followed by
`hf_hub_download`; any exception is caught and reported as a download
failure. -/
def downloadStep (env : ResolverEnv) :
    Except ResolveError ResolvedArtifact × List FsEvent :=
  if env.mkdirOk then
    let fetched := hfHubDownload env
    (fetched.1, FsEvent.mkdirCache :: fetched.2)
  else
    (Except.error ResolveError.downloadFailed, [FsEvent.mkdirCache])

/-- `resolve_model_path(path_argument)`: the candidate loop over the
explicit argument and the environment override, falling through to the
download branch, together with the filesystem / network events performed. -/
def resolve_model_path (pathArgument : Option String) (env : ResolverEnv) :
    Except ResolveError ResolvedArtifact × List FsEvent :=
  match resolveLoop pathArgument env
      [(pathArgument, Tier.Explicit), (env.envModel, Tier.EnvironmentOverride)] with
  | some result => (result, [])
  | none => downloadStep env

/-! ### Local counting (`llama_count.py`, `main`) -/

/-- The counting step of the local backend `main`:
`len(processor.EncodeAsIds(input_text))`, with the SentencePiece encoder
passed as a capability. -/
def llama_count_tokens (encode : String → List Nat) (inputText : String) : Nat :=
  (encode inputText).length

/-- The local backend `main`: resolve the artifact, then load the encoder
from it and write the number of token ids of the input text. A resolver
failure short-circuits before any counting. -/
def llama_main (pathArgument : Option String) (env : ResolverEnv)
    (encode : String → List Nat) (inputText : String) : Except ResolveError Nat :=
  match (resolve_model_path pathArgument env).1 with
  | Except.error e => Except.error e
  | Except.ok _ => Except.ok (llama_count_tokens encode inputText)

/-! ### Remote counting (`anthropic_count.py`) -/

/-- One content block of a Claude message payload. -/
structure ContentBlock where
  type : String
  text : String
deriving DecidableEq, Repr

/-- One message of a Claude request payload. -/
structure ClaudeMessage where
  role : String
  content : List ContentBlock
deriving DecidableEq, Repr

/-- `build_user_messages(user_text)`: the single-user-message payload
`[{"role": "user", "content": [{"type": "text", "text": user_text}]}]`. -/
def build_user_messages (userText : String) : List ClaudeMessage :=
  [⟨"user", [⟨"text", userText⟩]⟩]

/-- The `request_args` dictionary passed to `count_tokens`: `system` is
`none` exactly when the `"system"` key is absent from the payload. -/
structure RequestArgs where
  model : String
  messages : List ClaudeMessage
  system : Option String
deriving DecidableEq, Repr

/-- Assembly of `request_args` in `main`: model and messages always; the
`"system"` key only when the system prompt is truthy (present and
non-empty). -/
def build_request_args (model userText : String) (systemPrompt : Option String) :
    RequestArgs :=
  ⟨model, build_user_messages userText,
    if truthy systemPrompt then systemPrompt else none⟩

/-- The exception surface of `client.messages.count_tokens` relevant to
`handle_count_error`: `NotFoundError` (a subclass of `APIStatusError`,
tested first), any other `APIStatusError`, and everything else. -/
inductive ApiException
  | notFoundError
  | apiStatusError (message : String)
  | otherError (message : String)
deriving DecidableEq, Repr

/-- One entry of the model listing: `getattr(model_info, "id", None)`;
`none` also covers a non-string `id`. -/
structure ModelEntry where
  id : Option String
deriving DecidableEq, Repr

/-- The object returned by `client.models.list()`:
`getattr(models, "data", []) or []` turns an absent or falsy `data`
attribute into the empty list, modelled by `none`. -/
structure ModelsPage where
  data : Option (List ModelEntry)
deriving DecidableEq, Repr

/-- The Anthropic client capability: the outcome of
`client.messages.count_tokens(**request_args)` as a function of the
request, and the outcome of `client.models.list()` (`none` when the call
raises). -/
structure AnthropicClient where
  count_tokens : RequestArgs → Except ApiException Nat
  models_list : Option ModelsPage

/-- Network calls made by the remote backend. -/
inductive NetEvent
  | countCall (args : RequestArgs)
  | listModelsCall
deriving DecidableEq, Repr

/-- `discover_claude_models(client)`: list models (a raising call is
swallowed into `[]`), keep string ids starting with `"claude-"`, sort
lexicographically, return at most the first 10. -/
def discover_claude_models (client : AnthropicClient) : List String :=
  match client.models_list with
  | none => []
  | some page =>
    let entries := page.data.getD []
    let names := entries.filterMap fun entry =>
      match entry.id with
      | some modelId =>
        if pyStartsWith modelId "claude-" then some modelId else none
      | none => none
    (List.insertionSort strLe names).take 10

/-- The spec taxonomy of counting failures (spec §3, §7). -/
inductive ErrorKind
  | MissingDependency
  | MissingCredential
  | ArtifactUnavailable
  | ModelNotFound
  | TransportFailure
  | Unknown
deriving DecidableEq, Repr

/-- A classified counting failure: its kind and the model-name
suggestions attached to it. -/
structure CountingError where
  kind : ErrorKind
  suggestions : List String
deriving DecidableEq, Repr

/-- `handle_count_error(client, requested_model, count_error)`:
with the richer exception classes importable, a `NotFoundError` becomes
ModelNotFound enriched by one discovery call, another `APIStatusError`
becomes TransportFailure, and anything else falls to the catch-all
Unknown; when the classes cannot be imported (`APIStatusError =
NotFoundError = tuple()`), every `isinstance` test is false and everything
falls to the catch-all. Returns the classification and the network events
of the discovery sub-call. -/
def handle_count_error (errorClassesOk : Bool) (client : AnthropicClient)
    (countError : ApiException) : CountingError × List NetEvent :=
  if errorClassesOk then
    match countError with
    | ApiException.notFoundError =>
      (⟨ErrorKind.ModelNotFound, discover_claude_models client⟩,
        [NetEvent.listModelsCall])
    | ApiException.apiStatusError _ => (⟨ErrorKind.TransportFailure, []⟩, [])
    | ApiException.otherError _ => (⟨ErrorKind.Unknown, []⟩, [])
  else
    (⟨ErrorKind.Unknown, []⟩, [])

/-- The remote backend `main`: dependency import, credential check
(`if not api_key`) before the client is constructed, request assembly,
one `count_tokens` call, and on failure one pass through
`handle_count_error`. Returns the outcome and the network calls made. -/
def anthropic_main (importAnthropicOk errorClassesOk : Bool)
    (apiKey : Option String) (modelArg : String) (systemArg : Option String)
    (client : AnthropicClient) (userText : String) :
    Except CountingError Nat × List NetEvent :=
  if !importAnthropicOk then
    (Except.error ⟨ErrorKind.MissingDependency, []⟩, [])
  else if !truthy apiKey then
    (Except.error ⟨ErrorKind.MissingCredential, []⟩, [])
  else
    let args := build_request_args modelArg userText systemArg
    match client.count_tokens args with
    | Except.ok n => (Except.ok n, [NetEvent.countCall args])
    | Except.error e =>
      let handled := handle_count_error errorClassesOk client e
      (Except.error handled.1, NetEvent.countCall args :: handled.2)

/-! ### Concrete scenarios used by witnesses and counterexamples -/

/-- A resolver state whose filesystem holds no regular file at all, with a
working cache directory and network. -/
def noFileEnv : ResolverEnv :=
  ⟨"/home/user", fun _ => false, none, "/home/user/.cache/ctx/llama-tokenizer",
    "tokenizer.model", true, false, true⟩

/-- A resolver state whose filesystem holds exactly one regular file,
`/models/tokenizer.model`, and whose network is down. -/
def oneFileEnv : ResolverEnv :=
  ⟨"/home/user", fun p => p == "/models/tokenizer.model", none, "/cache",
    "tokenizer.model", true, false, false⟩

/-- A resolver state with a pre-populated cache and no explicit or
environment candidates. -/
def cachedEnv : ResolverEnv :=
  ⟨"/home/user", fun _ => false, none, "/home/user/.cache/ctx/llama-tokenizer",
    "tokenizer.model", true, true, true⟩

/-- A resolver state whose `CTX_SPM_MODEL` override points at a
non-existent file. -/
def badOverrideEnv : ResolverEnv :=
  ⟨"/home/user", fun _ => false, some "/nope/tokenizer.model", "/cache",
    "tokenizer.model", true, false, true⟩

/-- A client whose counting call raises `NotFoundError` and whose model
listing returns claude and non-claude ids out of order. -/
def notFoundClient : AnthropicClient :=
  ⟨fun _ => Except.error ApiException.notFoundError,
    some ⟨some [⟨some "claude-b"⟩, ⟨none⟩, ⟨some "gpt-x"⟩, ⟨some "claude-a"⟩]⟩⟩

/-- A client whose counting call raises `NotFoundError` and whose model
listing itself raises. -/
def listFailClient : AnthropicClient :=
  ⟨fun _ => Except.error ApiException.notFoundError, none⟩

/-- A client whose counting call succeeds with 7 input tokens. -/
def okClient : AnthropicClient :=
  ⟨fun _ => Except.ok 7, none⟩

/-! ### Helper lemmas -/

theorem discover_mem_claude (client : AnthropicClient) :
    ∀ s ∈ discover_claude_models client, pyStartsWith s "claude-" = true := by
  intro s hs
  cases hcl : client.models_list with
  | none => rw [discover_claude_models, hcl] at hs; simp at hs
  | some page =>
    rw [discover_claude_models, hcl] at hs
    simp only at hs
    have hsort : s ∈ List.insertionSort strLe _ := List.mem_of_mem_take hs
    have hnames := (List.perm_insertionSort strLe _).mem_iff.mp hsort
    rcases List.mem_filterMap.mp hnames with ⟨entry, _, hentry⟩
    cases hid : entry.id with
    | none => rw [hid] at hentry; simp at hentry
    | some modelId =>
      rw [hid] at hentry
      by_cases hcld : pyStartsWith modelId "claude-" = true
      · simp only [if_pos hcld, Option.some.injEq] at hentry
        exact hentry ▸ hcld
      · simp [hcld] at hentry

theorem discover_sorted (client : AnthropicClient) :
    List.Sorted strLe (discover_claude_models client) := by
  cases hcl : client.models_list with
  | none => rw [discover_claude_models, hcl]; simp
  | some page =>
    rw [discover_claude_models, hcl]
    exact List.Pairwise.sublist (List.take_sublist _ _)
      (List.sorted_insertionSort strLe _)

theorem discover_length_le (client : AnthropicClient) :
    (discover_claude_models client).length ≤ 10 := by
  cases hcl : client.models_list with
  | none => rw [discover_claude_models, hcl]; simp
  | some page =>
    rw [discover_claude_models, hcl]
    simp [List.length_take]

theorem resolve_none_none_falls_through (env : ResolverEnv)
    (henv : env.envModel = none) :
    resolve_model_path none env = downloadStep env := by
  simp [resolve_model_path, resolveLoop, henv, truthy]

theorem downloadStep_never_explicitMissing (env : ResolverEnv) (p : String) :
    (downloadStep env).1 ≠ Except.error (ResolveError.explicitMissing p) := by
  unfold downloadStep hfHubDownload
  by_cases hmk : env.mkdirOk <;> by_cases hch : env.cacheHasFile <;>
    by_cases hf : env.fetchOk <;> simp [hmk, hch, hf]

/-! ### Claims -/

/-- C1 (counterexample): an explicit artifact path that is provided but
empty is falsy, so the candidate loop skips it without the hard
ArtifactUnavailable error: even though the filesystem holds no regular
file at all, resolution falls through to the download tier, creating the
cache directory and performing a network fetch — contradicting the claim
that a provided non-file explicit path fails immediately with no fallback
and no network or cache activity. -/
theorem C1_counterexample :
    noFileEnv.isRegularFile (expanduser noFileEnv.home "") = false ∧
    resolve_model_path (some "") noFileEnv =
      (Except.ok ⟨"/home/user/.cache/ctx/llama-tokenizer/tokenizer.model",
          Tier.FreshDownload⟩,
        [FsEvent.mkdirCache, FsEvent.netFetch]) :=
  ⟨rfl, rfl⟩

/-- C1 (amended): for every resolution request in which the explicit
artifact path is provided and non-empty but does not refer to an existing
regular file, the resolver fails with the hard explicit-path
ArtifactUnavailable error immediately, with no fallback to any other tier
and no network or cache-directory event. -/
theorem C1_explicit_missing_hard_error (p : String) (env : ResolverEnv)
    (hne : p ≠ "")
    (hmiss : env.isRegularFile (expanduser env.home p) = false) :
    resolve_model_path (some p) env =
      (Except.error (ResolveError.explicitMissing (expanduser env.home p)), []) := by
  simp [resolve_model_path, resolveLoop, truthy, hne, hmiss]

/-- C1 witness: the amended claim at the concrete path
`/missing/model.bin` in a filesystem with no regular files. -/
theorem C1_witness :
    resolve_model_path (some "/missing/model.bin") noFileEnv =
      (Except.error (ResolveError.explicitMissing "/missing/model.bin"), []) :=
  C1_explicit_missing_hard_error "/missing/model.bin" noFileEnv (by decide) rfl

/-- C3: with no explicit path and no environment override, a
pre-populated cache resolves at tier CacheHit with no network fetch; and
when the same configuration resolved at tier FreshDownload, re-resolving
with the artifact now cached yields tier CacheHit at the same path. -/
theorem C3_cache_hit_no_network (env : ResolverEnv)
    (henv : env.envModel = none) (hmk : env.mkdirOk = true) :
    (env.cacheHasFile = true →
      resolve_model_path none env =
        (Except.ok ⟨cachePath env, Tier.CacheHit⟩, [FsEvent.mkdirCache]) ∧
      FsEvent.netFetch ∉ (resolve_model_path none env).2) ∧
    (∀ a : ResolvedArtifact,
      (resolve_model_path none env).1 = Except.ok a →
      a.tier = Tier.FreshDownload →
      resolve_model_path none { env with cacheHasFile := true } =
        (Except.ok ⟨a.path, Tier.CacheHit⟩, [FsEvent.mkdirCache])) := by
  have hfall := resolve_none_none_falls_through env henv
  constructor
  · intro hch
    rw [hfall]
    unfold downloadStep hfHubDownload
    simp [hmk, hch]
  · intro a hok htier
    rw [hfall] at hok
    have hfall2 : resolve_model_path none { env with cacheHasFile := true } =
        downloadStep { env with cacheHasFile := true } :=
      resolve_none_none_falls_through _ henv
    rw [hfall2]
    by_cases hch : env.cacheHasFile
    · simp [downloadStep, hfHubDownload, hmk, hch] at hok
      subst hok
      simp at htier
    · by_cases hf : env.fetchOk
      · simp [downloadStep, hfHubDownload, hmk, hch, hf] at hok
        subst hok
        simp [downloadStep, hfHubDownload, cachePath, hmk]
      · simp [downloadStep, hfHubDownload, hmk, hch, hf] at hok

/-- C3 witness: the cache-hit branch of the claim at a concrete
pre-populated cache. -/
theorem C3_witness :
    resolve_model_path none cachedEnv =
      (Except.ok ⟨"/home/user/.cache/ctx/llama-tokenizer/tokenizer.model",
          Tier.CacheHit⟩,
        [FsEvent.mkdirCache]) :=
  ((C3_cache_hit_no_network cachedEnv rfl rfl).1 rfl).1

/-- C7: tier priority is strict and total — a resolving explicit path
yields tier Explicit with no cache or network event regardless of the
other tiers; with no explicit path, a resolving environment override
yields tier EnvironmentOverride with no cache or network event; and in
the fallback branch a cached artifact takes priority over a fresh
download, with no network fetch. -/
theorem C7_tier_priority (env : ResolverEnv) :
    (∀ p, p ≠ "" → env.isRegularFile (expanduser env.home p) = true →
      resolve_model_path (some p) env =
        (Except.ok ⟨expanduser env.home p, Tier.Explicit⟩, [])) ∧
    (∀ s, env.envModel = some s → s ≠ "" →
      env.isRegularFile (expanduser env.home s) = true →
      resolve_model_path none env =
        (Except.ok ⟨expanduser env.home s, Tier.EnvironmentOverride⟩, [])) ∧
    (env.mkdirOk = true → env.cacheHasFile = true →
      downloadStep env =
        (Except.ok ⟨cachePath env, Tier.CacheHit⟩, [FsEvent.mkdirCache]) ∧
      FsEvent.netFetch ∉ (downloadStep env).2) := by
  refine ⟨?_, ?_, ?_⟩
  · intro p hne hfile
    simp [resolve_model_path, resolveLoop, truthy, hne, hfile]
  · intro s henv hne hfile
    simp [resolve_model_path, resolveLoop, henv, truthy, hne, hfile]
  · intro hmk hch
    unfold downloadStep hfHubDownload
    simp [hmk, hch]

/-- C7 witness: the explicit tier of the claim at a concrete filesystem
holding exactly one regular file. -/
theorem C7_witness :
    resolve_model_path (some "/models/tokenizer.model") oneFileEnv =
      (Except.ok ⟨"/models/tokenizer.model", Tier.Explicit⟩, []) :=
  (C7_tier_priority oneFileEnv).1 "/models/tokenizer.model" (by decide) rfl

/-- C8: counting the empty text through the local backend with a valid
artifact yields token count 0, because the token count is the length of
the encoded id sequence and encoding the empty string yields the empty
sequence. -/
theorem C8_empty_text_zero_tokens (pathArgument : Option String)
    (env : ResolverEnv) (encode : String → List Nat) (a : ResolvedArtifact)
    (hres : (resolve_model_path pathArgument env).1 = Except.ok a)
    (henc : encode "" = []) :
    llama_main pathArgument env encode "" = Except.ok 0 := by
  unfold llama_main
  rw [hres]
  simp [llama_count_tokens, henc]

/-- C8 witness: the claim at a concrete resolving explicit path and a
concrete encoder mapping text to its character codes. -/
theorem C8_witness :
    llama_main (some "/models/tokenizer.model") oneFileEnv
      (fun t => t.data.map Char.toNat) "" = Except.ok 0 :=
  C8_empty_text_zero_tokens (some "/models/tokenizer.model") oneFileEnv
    (fun t => t.data.map Char.toNat) ⟨"/models/tokenizer.model", Tier.Explicit⟩
    rfl rfl

/-- C10: with no explicit path, an environment override that does not
refer to an existing regular file is silently skipped: resolution
proceeds to the download branch, and the hard explicit-path
ArtifactUnavailable error is never produced. -/
theorem C10_env_override_missing_falls_through (env : ResolverEnv) (s : String)
    (henv : env.envModel = some s)
    (hmiss : env.isRegularFile (expanduser env.home s) = false) :
    resolve_model_path none env = downloadStep env ∧
    ∀ p, (resolve_model_path none env).1 ≠
      Except.error (ResolveError.explicitMissing p) := by
  have h1 : resolve_model_path none env = downloadStep env := by
    by_cases hs : s = ""
    · subst hs
      simp [resolve_model_path, resolveLoop, henv, truthy]
    · simp [resolve_model_path, resolveLoop, henv, truthy, hs, hmiss]
  refine ⟨h1, fun p => ?_⟩
  rw [h1]
  exact downloadStep_never_explicitMissing env p

/-- C10 witness: the claim at a concrete broken environment override,
with the fall-through download succeeding. -/
theorem C10_witness :
    resolve_model_path none badOverrideEnv = downloadStep badOverrideEnv ∧
    (resolve_model_path none badOverrideEnv).1 ≠
      Except.error (ResolveError.explicitMissing "/nope/tokenizer.model") :=
  ⟨(C10_env_override_missing_falls_through badOverrideEnv "/nope/tokenizer.model"
      rfl rfl).1,
    (C10_env_override_missing_falls_through badOverrideEnv "/nope/tokenizer.model"
      rfl rfl).2 "/nope/tokenizer.model"⟩

/-- C2: when the counting call raises `NotFoundError`, the remote backend
returns a ModelNotFound error whose suggestions come from the discovery
call: every suggestion starts with the provider family marker `claude-`,
the list is lexicographically sorted, and it holds at most 10 entries. -/
theorem C2_model_not_found_suggestions (modelArg userText apiKey : String)
    (systemArg : Option String) (client : AnthropicClient)
    (hkey : apiKey ≠ "")
    (hnf : client.count_tokens (build_request_args modelArg userText systemArg) =
      Except.error ApiException.notFoundError) :
    (anthropic_main true true (some apiKey) modelArg systemArg client userText).1 =
      Except.error ⟨ErrorKind.ModelNotFound, discover_claude_models client⟩ ∧
    (∀ s ∈ discover_claude_models client, pyStartsWith s "claude-" = true) ∧
    List.Sorted strLe (discover_claude_models client) ∧
    (discover_claude_models client).length ≤ 10 := by
  refine ⟨?_, discover_mem_claude client, discover_sorted client,
    discover_length_le client⟩
  simp [anthropic_main, truthy, hkey, hnf, handle_count_error]

/-- C2 witness: the claim at a concrete client whose listing returns
claude and non-claude ids out of order; the suggestions come out
filtered, sorted and short. -/
theorem C2_witness :
    (anthropic_main true true (some "key") "not-a-real-model" none
        notFoundClient "hello").1 =
      Except.error ⟨ErrorKind.ModelNotFound, discover_claude_models notFoundClient⟩ ∧
    discover_claude_models notFoundClient = ["claude-a", "claude-b"] :=
  ⟨(C2_model_not_found_suggestions "not-a-real-model" "hello" "key" none
      notFoundClient (by decide) rfl).1, rfl⟩

/-- C4: every remote counting call with the dependency importable and a
credential present produces exactly one outcome — a count, or an error
classified as ModelNotFound, TransportFailure or Unknown, with empty
suggestions outside ModelNotFound — and the counting call is made exactly
once (no retries). -/
theorem C4_single_classified_outcome (errorClassesOk : Bool)
    (apiKey modelArg userText : String) (systemArg : Option String)
    (client : AnthropicClient) (hkey : apiKey ≠ "") :
    ((∃ n, (anthropic_main true errorClassesOk (some apiKey) modelArg systemArg
        client userText).1 = Except.ok n) ∨
      (∃ err : CountingError,
        (anthropic_main true errorClassesOk (some apiKey) modelArg systemArg
          client userText).1 = Except.error err ∧
        (err.kind = ErrorKind.ModelNotFound ∨
          err.kind = ErrorKind.TransportFailure ∨
          err.kind = ErrorKind.Unknown) ∧
        (err.kind ≠ ErrorKind.ModelNotFound → err.suggestions = []))) ∧
    List.countP
      (fun e => match e with | NetEvent.countCall _ => true | _ => false)
      (anthropic_main true errorClassesOk (some apiKey) modelArg systemArg
        client userText).2 = 1 := by
  cases hres : client.count_tokens (build_request_args modelArg userText systemArg) with
  | ok n =>
    constructor
    · exact Or.inl ⟨n, by simp [anthropic_main, truthy, hkey, hres]⟩
    · simp [anthropic_main, truthy, hkey, hres]
  | error e =>
    constructor
    · refine Or.inr ⟨(handle_count_error errorClassesOk client e).1,
        by simp [anthropic_main, truthy, hkey, hres], ?_, ?_⟩
      · cases herr : errorClassesOk <;> cases e <;>
          simp [handle_count_error]
      · cases herr : errorClassesOk <;> cases e <;>
          simp [handle_count_error]
    · cases herr : errorClassesOk <;> cases e <;>
        simp [anthropic_main, truthy, hkey, hres, handle_count_error]

/-- C4 witness: the claim at a concrete client whose counting call
succeeds: exactly one counting call is made. -/
theorem C4_witness :
    List.countP
      (fun e => match e with | NetEvent.countCall _ => true | _ => false)
      (anthropic_main true true (some "key") "m" none okClient "hello").2 = 1 :=
  (C4_single_classified_outcome true "key" "m" "hello" none okClient
    (by decide)).2

/-- C5: when the counting call raises `NotFoundError` and the discovery
listing call itself raises, the discovery failure is swallowed: the
outcome is still a ModelNotFound error, with empty suggestions, and no
second error replaces it. -/
theorem C5_discovery_failure_swallowed (modelArg userText apiKey : String)
    (systemArg : Option String) (client : AnthropicClient)
    (hkey : apiKey ≠ "")
    (hnf : client.count_tokens (build_request_args modelArg userText systemArg) =
      Except.error ApiException.notFoundError)
    (hlist : client.models_list = none) :
    (anthropic_main true true (some apiKey) modelArg systemArg client userText).1 =
      Except.error ⟨ErrorKind.ModelNotFound, []⟩ := by
  have hdisc : discover_claude_models client = [] := by
    rw [discover_claude_models, hlist]
  simp [anthropic_main, truthy, hkey, hnf, handle_count_error, hdisc]

/-- C5 witness: the claim at a concrete client whose listing call
raises. -/
theorem C5_witness :
    (anthropic_main true true (some "key") "m" none listFailClient "hello").1 =
      Except.error ⟨ErrorKind.ModelNotFound, []⟩ :=
  C5_discovery_failure_swallowed "m" "hello" "key" none listFailClient
    (by decide) rfl rfl

/-- C6: with the credential absent from the environment, the remote
backend fails with MissingCredential and the network-event trace is
empty — the failure is reported before the client is used. -/
theorem C6_missing_credential_no_network (errorClassesOk : Bool)
    (modelArg : String) (systemArg : Option String)
    (client : AnthropicClient) (userText : String) :
    anthropic_main true errorClassesOk none modelArg systemArg client userText =
      (Except.error ⟨ErrorKind.MissingCredential, []⟩, []) := by
  simp [anthropic_main, truthy]

/-- C9: an empty system prompt is falsy, so the `"system"` key is absent
from the request payload, and the whole remote counting call behaves
identically to one with the system prompt omitted entirely. -/
theorem C9_empty_system_prompt_omitted (importAnthropicOk errorClassesOk : Bool)
    (apiKey : Option String) (modelArg : String)
    (client : AnthropicClient) (userText : String) :
    (build_request_args modelArg userText (some "")).system = none ∧
    build_request_args modelArg userText (some "") =
      build_request_args modelArg userText none ∧
    anthropic_main importAnthropicOk errorClassesOk apiKey modelArg (some "")
        client userText =
      anthropic_main importAnthropicOk errorClassesOk apiKey modelArg none
        client userText :=
  ⟨rfl, rfl, rfl⟩

end Ctx
